import Mathlib

/-!
Verification of the WarpMe starship-simulator core (src/js/core/state.js,
src/js/core/simulation.js, src/js/stations/helm.js).

Modelling conventions for the shallow embedding:
* JS numbers are modelled as exact rationals (no floating-point rounding).
* A comparison of a Math.hypot value against a threshold is embedded via the
  squared distance: for real dx, dy and a threshold r we have
  hypot(dx,dy) < r iff (0 < r and dx*dx+dy*dy < r*r), and
  hypot(dx,dy) > r iff (r < 0 or r*r < dx*dx+dy*dy), because hypot is the
  nonnegative square root of dx*dx+dy*dy.
* The transcendental functions Math.cos, Math.sin, Math.atan2 are abstracted
  into a Trig record; every theorem below is proved for an arbitrary Trig
  interpretation, hence in particular for the true trigonometric functions.
* Calls to Math.random() are passed in as explicit arguments (the boolean
  outcome of each comparison against a literal probability, and the random
  subsystem index as a Fin 4).
* In-place mutation of a ship object shared between gameState.playerShip /
  gameState.ships and a local variable is embedded as an explicit write-back
  keyed by the ship id (updating the first list entry with that id, which is
  the object JS would have found).
* Event emission is embedded by returning the list of emitted events
  alongside the updated state.
* JS code paths that would throw a TypeError (reading a property of
  undefined) are embedded as an Option-valued result, none marking the throw.
-/

namespace WarpMe

/-- One subsystem record, as produced by createSubsystems (state.js 7-14). -/
structure Subsystem where
  hp : ℚ
  maxHp : ℚ
  power : ℚ
deriving Repr, DecidableEq

/-- The four named subsystems of a ship (state.js 7-14). -/
structure Subsystems where
  engines : Subsystem
  weapons : Subsystem
  shields : Subsystem
  sensors : Subsystem
deriving Repr, DecidableEq

/-- createSubsystems (state.js 7-14). -/
def createSubsystems : Subsystems :=
  { engines := ⟨100, 100, 50⟩
    weapons := ⟨100, 100, 50⟩
    shields := ⟨100, 100, 50⟩
    sensors := ⟨100, 100, 50⟩ }

/-- A ship, as produced by createShip (state.js 17-43).  The fields that play
no role in the simulation core claims (type tag, scanned flag) are omitted. -/
structure Ship where
  id : String
  name : String
  faction : String
  x : ℚ
  y : ℚ
  heading : ℚ
  velocity : ℚ
  maxVelocity : ℚ
  turnRate : ℚ
  subsystems : Subsystems
  hull : ℚ
  maxHull : ℚ
  shieldStrength : ℚ
  maxShieldStrength : ℚ
  aiState : String
  patrolPoints : List (ℚ × ℚ)
  patrolIndex : Nat
  target : Option String
  size : ℚ
deriving Repr, DecidableEq

/-- A projectile, as produced by createProjectile (state.js 46-60). -/
structure Projectile where
  ptype : String
  x : ℚ
  y : ℚ
  heading : ℚ
  velocity : ℚ
  damage : ℚ
  sourceId : String
  targetId : Option String
  lifetime : ℤ
  size : ℚ
deriving Repr, DecidableEq

/-- A phaser beam record (state.js 192-198, simulation.js 246-252). -/
structure Beam where
  x1 : ℚ
  y1 : ℚ
  x2 : ℚ
  y2 : ℚ
  lifetime : ℤ
deriving Repr, DecidableEq

/-- An entry of the communication log (state.js 260-276). -/
structure CommsMessage where
  sender : String
  message : String
  mtype : String
deriving Repr, DecidableEq

/-- The events emitted through GameState.emit. -/
inductive Event where
  | shipAdded (id : String)
  | shipDestroyed (id : String)
  | shipDamaged (id : String) (damage : ℚ)
  | playerDestroyed
  | weaponFired (kind : String)
  | commsMessage (sender message mtype : String)
  | alertChanged (level : String)
  | powerChanged (system : String) (power : ℚ)
  | repairStarted (system : String)
  | targetChanged (id : Option String)
deriving Repr, DecidableEq

/-- Recognizer for shipDestroyed events. -/
def Event.isShipDestroyed : Event → Bool
  | .shipDestroyed _ => true
  | _ => false

/-- Recognizer for shipDamaged events. -/
def Event.isShipDamaged : Event → Bool
  | .shipDamaged _ _ => true
  | _ => false

/-- Recognizer for playerDestroyed events. -/
def Event.isPlayerDestroyed : Event → Bool
  | .playerDestroyed => true
  | _ => false

/-- The mutable world snapshot held by GameState (state.js 63-114). -/
structure GameState where
  playerShip : Ship
  ships : List Ship
  projectiles : List Projectile
  phaserBeams : List Beam
  commsLog : List CommsMessage
  currentTarget : Option String
  alertLevel : String
  waypoint : Option (ℚ × ℚ)
  repairCooldowns : List (String × ℤ)
  gameTime : ℤ
deriving Repr, DecidableEq

/-- Abstract interface for the transcendental functions used by the source.
cosDeg h stands for Math.cos(h * Math.PI / 180), sinDeg likewise;
atan2Deg y x stands for Math.atan2(y, x) * 180 / Math.PI;
atan2Rad y x stands for Math.atan2(y, x), and cosRad / sinRad for
Math.cos / Math.sin applied to a value in radians. -/
structure Trig where
  cosDeg : ℚ → ℚ
  sinDeg : ℚ → ℚ
  atan2Deg : ℚ → ℚ → ℚ
  atan2Rad : ℚ → ℚ → ℚ
  cosRad : ℚ → ℚ
  sinRad : ℚ → ℚ

/-- A trivial Trig interpretation, used only to instantiate witnesses of
universally quantified theorems. -/
def constTrig : Trig :=
  { cosDeg := fun _ => 1
    sinDeg := fun _ => 0
    atan2Deg := fun _ _ => 0
    atan2Rad := fun _ _ => 0
    cosRad := fun _ => 1
    sinRad := fun _ => 0 }

/-- Squared length of the vector (dx, dy). -/
def distSq (dx dy : ℚ) : ℚ := dx * dx + dy * dy

/-- Embeds the comparison sqrt dsq < r for a nonnegative radicand dsq. -/
def sqLt (dsq r : ℚ) : Bool := decide (0 < r ∧ dsq < r * r)

/-- Embeds the comparison sqrt dsq > r for a nonnegative radicand dsq. -/
def sqGt (dsq r : ℚ) : Bool := decide (r < 0 ∨ r * r < dsq)

/-- Embeds the source comparison Math.hypot(dx, dy) < r. -/
def hypotLt (dx dy r : ℚ) : Bool := sqLt (distSq dx dy) r

/-- Embeds the source comparison Math.hypot(dx, dy) > r. -/
def hypotGt (dx dy r : ℚ) : Bool := sqGt (distSq dx dy) r

/-- Subsystem effectiveness (hp / 100) * (power / 100)
(simulation.js 359-362, helm.js 282, state.js 175). -/
def effectiveness (sys : Subsystem) : ℚ := sys.hp / 100 * (sys.power / 100)

/-! ## Heading arithmetic (helm.js and simulation.js) -/

/-- Truncation toward zero, as performed by the JS % operator. -/
def jsTrunc (q : ℚ) : ℤ := if 0 ≤ q then ⌊q⌋ else ⌈q⌉

/-- The JS remainder operator a % b (truncated division, sign of the
dividend). -/
def jsMod (a b : ℚ) : ℚ := a - b * jsTrunc (a / b)

/-- The normalization ((h % 360) + 360) % 360 used by HelmStation.setHeading
and HelmStation.turn (helm.js 289, 296). -/
def wrap360 (h : ℚ) : ℚ := jsMod (jsMod h 360 + 360) 360

/-- The loop `while (heading < 0) heading += 360` (simulation.js 225). -/
def addTurns (h : ℚ) : ℚ :=
  if h < 0 then addTurns (h + 360) else h
termination_by (⌈-h / 360⌉).toNat
decreasing_by
  have h1 : (0 : ℚ) < -h / 360 := by
    apply div_pos (by linarith) (by norm_num)
  have h2 : 0 < ⌈-h / 360⌉ := Int.ceil_pos.mpr h1
  have h3 : -(h + 360) / 360 = -h / 360 - ((1 : ℤ) : ℚ) := by push_cast; ring
  simp only [h3, Int.ceil_sub_int]
  omega

/-- The loop `while (heading >= 360) heading -= 360` (simulation.js 226). -/
def subTurns (h : ℚ) : ℚ :=
  if 360 ≤ h then subTurns (h - 360) else h
termination_by (⌊h / 360⌋).toNat
decreasing_by
  have h1 : (1 : ℚ) ≤ h / 360 := by
    rw [le_div_iff₀ (by norm_num : (0:ℚ) < 360)]; linarith
  have h2 : 1 ≤ ⌊h / 360⌋ := by
    exact_mod_cast Int.le_floor.mpr (by exact_mod_cast h1)
  have h3 : (h - 360) / 360 = h / 360 - ((1 : ℤ) : ℚ) := by push_cast; ring
  simp only [h3, Int.floor_sub_int]
  omega

/-- The loop `while (angleDiff > 180) angleDiff -= 360` (simulation.js 213). -/
def subDiff (d : ℚ) : ℚ :=
  if 180 < d then subDiff (d - 360) else d
termination_by (⌈d / 360⌉).toNat
decreasing_by
  have h1 : (0 : ℚ) < d / 360 := by
    apply div_pos (by linarith) (by norm_num)
  have h2 : 0 < ⌈d / 360⌉ := Int.ceil_pos.mpr h1
  have h3 : (d - 360) / 360 = d / 360 - ((1 : ℤ) : ℚ) := by push_cast; ring
  simp only [h3, Int.ceil_sub_int]
  omega

/-- The loop `while (angleDiff < -180) angleDiff += 360` (simulation.js 214). -/
def addDiff (d : ℚ) : ℚ :=
  if d < -180 then addDiff (d + 360) else d
termination_by (⌈-d / 360⌉).toNat
decreasing_by
  have h1 : (0 : ℚ) < -d / 360 := by
    apply div_pos (by linarith) (by norm_num)
  have h2 : 0 < ⌈-d / 360⌉ := Int.ceil_pos.mpr h1
  have h3 : -(d + 360) / 360 = -d / 360 - ((1 : ℤ) : ℚ) := by push_cast; ring
  simp only [h3, Int.ceil_sub_int]
  omega

/-- The turn-towards-target block of Simulation.moveNPCShip
(simulation.js 208-227).  targetAngle is the value
Math.atan2(targetY - y, targetX - x) * 180 / Math.PI computed by the source;
turnSpeed is turnRate * engineEffectiveness. -/
def steerHeading (heading targetAngle turnSpeed : ℚ) : ℚ :=
  let angleDiff := addDiff (subDiff (targetAngle - heading))
  let h :=
    if |angleDiff| < turnSpeed then targetAngle
    else heading + (if 0 < angleDiff then turnSpeed else -turnSpeed)
  subTurns (addTurns h)

/-- HelmStation.setHeading (helm.js 288-292). -/
def helmSetHeading (gs : GameState) (heading : ℚ) : GameState :=
  { gs with playerShip := { gs.playerShip with heading := wrap360 heading } }

/-- HelmStation.turn (helm.js 294-299). -/
def helmTurn (gs : GameState) (degrees : ℚ) : GameState :=
  { gs with playerShip :=
      { gs.playerShip with heading := wrap360 (gs.playerShip.heading + degrees) } }

/-- HelmStation.setThrottle (helm.js 280-286). -/
def setThrottle (gs : GameState) (percent : ℚ) : GameState :=
  let ship := gs.playerShip
  let engineEffectiveness := ship.subsystems.engines.hp / 100 * (ship.subsystems.engines.power / 100)
  { gs with playerShip :=
      { ship with velocity := percent / 100 * ship.maxVelocity * engineEffectiveness } }

/-! ## Heading normalization lemmas -/

theorem jsMod_nonneg_of_nonneg {a b : ℚ} (ha : 0 ≤ a) (hb : 0 < b) :
    0 ≤ jsMod a b := by
  have hq : 0 ≤ a / b := div_nonneg ha hb.le
  rw [jsMod, jsTrunc, if_pos hq]
  have h1 : (⌊a / b⌋ : ℚ) ≤ a / b := Int.floor_le _
  have h2 : b * (⌊a / b⌋ : ℚ) ≤ b * (a / b) := by
    exact mul_le_mul_of_nonneg_left h1 hb.le
  have h3 : b * (a / b) = a := by field_simp
  linarith

theorem jsMod_lt_of_nonneg {a b : ℚ} (ha : 0 ≤ a) (hb : 0 < b) :
    jsMod a b < b := by
  have hq : 0 ≤ a / b := div_nonneg ha hb.le
  rw [jsMod, jsTrunc, if_pos hq]
  have h1 : a / b < ⌊a / b⌋ + 1 := Int.lt_floor_add_one _
  have h2 : b * (a / b) < b * ((⌊a / b⌋ : ℚ) + 1) := by
    exact mul_lt_mul_of_pos_left h1 hb
  have h3 : b * (a / b) = a := by field_simp
  nlinarith

theorem jsMod_nonpos_of_neg {a b : ℚ} (ha : a < 0) (hb : 0 < b) :
    jsMod a b ≤ 0 := by
  have hq : ¬ 0 ≤ a / b := by
    rw [not_le]
    exact div_neg_of_neg_of_pos ha hb
  rw [jsMod, jsTrunc, if_neg hq]
  have h1 : a / b ≤ ⌈a / b⌉ := Int.le_ceil _
  have h2 : b * (a / b) ≤ b * (⌈a / b⌉ : ℚ) := by
    exact mul_le_mul_of_nonneg_left h1 hb.le
  have h3 : b * (a / b) = a := by field_simp
  linarith

theorem jsMod_gt_of_neg {a b : ℚ} (ha : a < 0) (hb : 0 < b) :
    -b < jsMod a b := by
  have hq : ¬ 0 ≤ a / b := by
    rw [not_le]
    exact div_neg_of_neg_of_pos ha hb
  rw [jsMod, jsTrunc, if_neg hq]
  have h1 : (⌈a / b⌉ : ℚ) < a / b + 1 := Int.ceil_lt_add_one _
  have h2 : b * (⌈a / b⌉ : ℚ) < b * (a / b + 1) := by
    exact mul_lt_mul_of_pos_left h1 hb
  have h3 : b * (a / b) = a := by field_simp
  nlinarith

theorem wrap360_nonneg (h : ℚ) : 0 ≤ wrap360 h := by
  rw [wrap360]
  apply jsMod_nonneg_of_nonneg _ (by norm_num)
  rcases le_or_lt 0 h with h0 | h0
  · have := jsMod_nonneg_of_nonneg h0 (show (0:ℚ) < 360 by norm_num)
    linarith
  · have := jsMod_gt_of_neg h0 (show (0:ℚ) < 360 by norm_num)
    linarith

theorem wrap360_lt (h : ℚ) : wrap360 h < 360 := by
  rw [wrap360]
  apply jsMod_lt_of_nonneg _ (by norm_num)
  rcases le_or_lt 0 h with h0 | h0
  · have := jsMod_nonneg_of_nonneg h0 (show (0:ℚ) < 360 by norm_num)
    linarith
  · have := jsMod_gt_of_neg h0 (show (0:ℚ) < 360 by norm_num)
    linarith

theorem addTurns_nonneg_of_nonneg (h : ℚ) (h0 : 0 ≤ h) : addTurns h = h := by
  rw [addTurns]
  simp [not_lt.mpr h0]

theorem addTurns_nonneg (h : ℚ) : 0 ≤ addTurns h := by
  induction h using addTurns.induct with
  | case1 h hlt ih =>
    rw [addTurns, if_pos hlt]
    exact ih
  | case2 h hge =>
    rw [addTurns, if_neg hge]
    exact not_lt.mp hge

theorem subTurns_nonneg (h : ℚ) (h0 : 0 ≤ h) : 0 ≤ subTurns h := by
  induction h using subTurns.induct with
  | case1 h hge ih =>
    rw [subTurns, if_pos hge]
    exact ih (by linarith)
  | case2 h hlt =>
    rw [subTurns, if_neg hlt]
    exact h0

theorem subTurns_lt (h : ℚ) : subTurns h < 360 := by
  induction h using subTurns.induct with
  | case1 h hge ih =>
    rw [subTurns, if_pos hge]
    exact ih
  | case2 h hlt =>
    rw [subTurns, if_neg hlt]
    exact not_le.mp hlt

theorem steerHeading_nonneg (heading targetAngle turnSpeed : ℚ) :
    0 ≤ steerHeading heading targetAngle turnSpeed := by
  rw [steerHeading]
  exact subTurns_nonneg _ (addTurns_nonneg _)

theorem steerHeading_lt (heading targetAngle turnSpeed : ℚ) :
    steerHeading heading targetAngle turnSpeed < 360 := by
  rw [steerHeading]
  exact subTurns_lt _

/-- Claim C6: for all inputs, including negative degrees and multiples of
360, the player ship heading is in [0,360) after any turn or set-heading
operation, and an NPC heading is in [0,360) after the turn-towards-target
steering block of its per-tick movement update (simulation.js 208-227,
embedded by steerHeading). -/
theorem C6_heading_always_normalized (gs : GameState) (h d hd ta ts : ℚ) :
    (0 ≤ (helmSetHeading gs h).playerShip.heading ∧
      (helmSetHeading gs h).playerShip.heading < 360) ∧
    (0 ≤ (helmTurn gs d).playerShip.heading ∧
      (helmTurn gs d).playerShip.heading < 360) ∧
    (0 ≤ steerHeading hd ta ts ∧ steerHeading hd ta ts < 360) := by
  refine ⟨⟨?_, ?_⟩, ⟨?_, ?_⟩, ⟨?_, ?_⟩⟩
  · exact wrap360_nonneg h
  · exact wrap360_lt h
  · exact wrap360_nonneg _
  · exact wrap360_lt _
  · exact steerHeading_nonneg hd ta ts
  · exact steerHeading_lt hd ta ts

/-! ## World model operations (state.js) -/

/-- GameState.getShip (state.js 159-162). -/
def getShip (gs : GameState) (shipId : String) : Option Ship :=
  if shipId = "player" then some gs.playerShip
  else gs.ships.find? (fun s => s.id = shipId)

/-- getShip applied to a possibly null id (JS getShip(null) finds nothing). -/
def getShipOpt (gs : GameState) (shipId : Option String) : Option Ship :=
  shipId.bind (getShip gs)

/-- GameState.addCommsMessage (state.js 260-276): unshift onto the log and
drop the oldest entry beyond 50. -/
def addCommsMessage (gs : GameState) (sender message mtype : String) :
    GameState × List Event :=
  let msg : CommsMessage := ⟨sender, message, mtype⟩
  let log := msg :: gs.commsLog
  let log := if log.length > 50 then log.dropLast else log
  ({ gs with commsLog := log }, [Event.commsMessage sender message mtype])

/-- GameState.setAlertLevel (state.js 285-291): no-op when unchanged. -/
def setAlertLevel (gs : GameState) (level : String) : GameState × List Event :=
  if gs.alertLevel ≠ level then
    let gs1 := { gs with alertLevel := level }
    let p := addCommsMessage gs1 "BRIDGE" (level.toUpper ++ " ALERT")
      (if level = "red" then "alert" else "info")
    (p.1, Event.alertChanged level :: p.2)
  else (gs, [])

/-- Removes the first list entry with the given id, returning it
(embeds findIndex + splice, state.js 148-150). -/
def removeFirstShip : List Ship → String → Option Ship × List Ship
  | [], _ => (none, [])
  | s :: rest, shipId =>
    if s.id = shipId then (some s, rest)
    else
      let r := removeFirstShip rest shipId
      (r.1, s :: r.2)

/-- GameState.removeShip (state.js 147-156): splice the ship out, emit
shipDestroyed once, clear the current target if it pointed at the ship;
no-op when the id is absent. -/
def removeShip (gs : GameState) (shipId : String) : GameState × List Event :=
  match removeFirstShip gs.ships shipId with
  | (some ship, rest) =>
    ({ gs with
        ships := rest
        currentTarget :=
          if gs.currentTarget = some shipId then none else gs.currentTarget },
      [Event.shipDestroyed ship.id])
  | (none, _) => (gs, [])

/-- Replaces the first list entry with the given id (embeds JS in-place
mutation of the ship object found in the array). -/
def updateFirstShip : List Ship → String → Ship → List Ship
  | [], _, _ => []
  | s :: rest, shipId, s2 =>
    if s.id = shipId then s2 :: rest else s :: updateFirstShip rest shipId s2

/-- Write-back of the mutated ship object into the world: the player ship
when the id is "player", otherwise the first entry of gs.ships with the id. -/
def writeShip (gs : GameState) (shipId : String) (ship : Ship) : GameState :=
  if shipId = "player" then { gs with playerShip := ship }
  else { gs with ships := updateFirstShip gs.ships shipId ship }

/-! ## Damage pipeline (state.js 224-257) -/

/-- Shield absorption
Math.min(shieldStrength, damage * (shields.power / 100) * 0.8)
(state.js 226-227). -/
def shieldAbsorbOf (ship : Ship) (damage : ℚ) : ℚ :=
  min ship.shieldStrength (damage * (ship.subsystems.shields.power / 100) * 0.8)

/-- Name of the subsystem at a random index (state.js 235-236). -/
def subsystemNameAt : Fin 4 → String
  | 0 => "engines"
  | 1 => "weapons"
  | 2 => "shields"
  | 3 => "sensors"

/-- The random subsystem hp reduction
hp = Math.max(0, hp - hullDamage * 0.5) (state.js 237). -/
def damageSubsysAt (s : Subsystems) (idx : Fin 4) (hullDamage : ℚ) : Subsystems :=
  match idx with
  | 0 => { s with engines := { s.engines with hp := max 0 (s.engines.hp - hullDamage * 0.5) } }
  | 1 => { s with weapons := { s.weapons with hp := max 0 (s.weapons.hp - hullDamage * 0.5) } }
  | 2 => { s with shields := { s.shields with hp := max 0 (s.shields.hp - hullDamage * 0.5) } }
  | 3 => { s with sensors := { s.sensors with hp := max 0 (s.sensors.hp - hullDamage * 0.5) } }

/-- The per-ship field updates performed by GameState.damageShip
(state.js 224-257): shield absorption, hull reduction, the optional random
subsystem damage (sysHit is the Math.random() < 0.3 draw, sysIdx the random
index), and the hull floor applied in the destruction branch
(ship.hull = 0 when hull <= 0). -/
def applyDamage (ship : Ship) (damage : ℚ) (sysHit : Bool) (sysIdx : Fin 4) : Ship :=
  let shieldAbsorb := shieldAbsorbOf ship damage
  let hullDamage := damage - shieldAbsorb
  let ship1 := { ship with shieldStrength := ship.shieldStrength - shieldAbsorb }
  let ship2 := { ship1 with hull := ship1.hull - hullDamage }
  let ship3 :=
    if hullDamage > 5 ∧ sysHit then
      { ship2 with subsystems := damageSubsysAt ship2.subsystems sysIdx hullDamage }
    else ship2
  if ship3.hull ≤ 0 then { ship3 with hull := 0 } else ship3

/-- GameState.damageShip (state.js 224-257).  The ship argument is the JS
object reference; its mutated value is written back into the world by id.
Checking the floored hull against 0 is equivalent to the JS check of the
unfloored hull, since the floor maps exactly the nonpositive values to 0. -/
def damageShip (gs : GameState) (ship : Ship) (damage : ℚ)
    (sysHit : Bool) (sysIdx : Fin 4) : GameState × List Event :=
  let shieldAbsorb := shieldAbsorbOf ship damage
  let hullDamage := damage - shieldAbsorb
  let ship2 := applyDamage ship damage sysHit sysIdx
  let gs1 := writeShip gs ship.id ship2
  let p0 :=
    if hullDamage > 5 ∧ sysHit ∧ ship.id = "player" then
      addCommsMessage gs1 "DAMAGE CONTROL"
        ((subsystemNameAt sysIdx).toUpper ++ " damaged!") "alert"
    else (gs1, [])
  let gs2 := p0.1
  let evs1 := p0.2 ++ [Event.shipDamaged ship.id damage]
  if ship2.hull ≤ 0 then
    if ship.id ≠ "player" then
      let p1 := removeShip gs2 ship.id
      let p2 := addCommsMessage p1.1 "TACTICAL" (ship.name ++ " destroyed!") "info"
      (p2.1, evs1 ++ p1.2 ++ p2.2)
    else
      let p2 := addCommsMessage gs2 "SYSTEM" "HULL BREACH! ALL HANDS ABANDON SHIP!" "alert"
      (p2.1, evs1 ++ [Event.playerDestroyed] ++ p2.2)
  else (gs2, evs1)

/-- Claim C1: damageShip never drives hull or shieldStrength below 0, for
any raw damage value, including damage exceeding remaining shields and hull
combined.  applyDamage is exactly the field update damageShip performs on
the struck ship, so the statement is unconditional over all ships, damages
and random draws. -/
theorem C1_damage_never_negative (ship : Ship) (damage : ℚ)
    (sysHit : Bool) (sysIdx : Fin 4) :
    0 ≤ (applyDamage ship damage sysHit sysIdx).hull ∧
    0 ≤ (applyDamage ship damage sysHit sysIdx).shieldStrength := by
  have habs : shieldAbsorbOf ship damage ≤ ship.shieldStrength := min_le_left _ _
  constructor
  · simp only [applyDamage]
    split <;> split <;> simp_all <;> try linarith
  · simp only [applyDamage]
    split <;> split <;> simp_all <;> try linarith

/-! ## Weapons, repair and power (state.js) -/

/-- Lookup of this.playerShip.subsystems[systemName]: none embeds the JS
undefined result for an unknown subsystem name. -/
def getSubsystem (s : Subsystems) (name : String) : Option Subsystem :=
  if name = "engines" then some s.engines
  else if name = "weapons" then some s.weapons
  else if name = "shields" then some s.shields
  else if name = "sensors" then some s.sensors
  else none

/-- Write of this.playerShip.subsystems[systemName]. -/
def setSubsystem (s : Subsystems) (name : String) (sys : Subsystem) : Subsystems :=
  if name = "engines" then { s with engines := sys }
  else if name = "weapons" then { s with weapons := sys }
  else if name = "shields" then { s with shields := sys }
  else if name = "sensors" then { s with sensors := sys }
  else s

/-- this.repairCooldowns[systemName], 0 when absent (undefined > 0 is false
in JS, matching the 0 default here). -/
def cooldownOf (gs : GameState) (name : String) : ℤ :=
  (gs.repairCooldowns.lookup name).getD 0

/-- this.repairCooldowns[systemName] = v. -/
def setCooldown (l : List (String × ℤ)) (name : String) (v : ℤ) :
    List (String × ℤ) :=
  (name, v) :: l.filter (fun p => p.1 ≠ name)

/-- GameState.repairSubsystem (state.js 306-323).  For an unknown subsystem
name the JS code reads .hp of undefined and throws a TypeError; that path is
embedded as none.  Otherwise some (result, state, events). -/
def repairSubsystem (gs : GameState) (systemName : String) :
    Option (Bool × GameState × List Event) :=
  if cooldownOf gs systemName > 0 then some (false, gs, [])
  else
    match getSubsystem gs.playerShip.subsystems systemName with
    | none => none
    | some system =>
      if system.hp ≥ system.maxHp then some (false, gs, [])
      else
        let system2 := { system with hp := min system.maxHp (system.hp + 25) }
        let gs1 := { gs with
          playerShip := { gs.playerShip with
            subsystems := setSubsystem gs.playerShip.subsystems systemName system2 }
          repairCooldowns := setCooldown gs.repairCooldowns systemName 300 }
        let p := addCommsMessage gs1 "ENGINEERING" ("Repairing " ++ systemName ++ "...") "info"
        some (true, p.1, p.2 ++ [Event.repairStarted systemName])

/-- GameState.setPower (state.js 326-332): unknown subsystem names are a
no-op thanks to the `if (system)` guard; power is clamped to [0, 100]. -/
def setPower (gs : GameState) (systemName : String) (power : ℚ) :
    GameState × List Event :=
  match getSubsystem gs.playerShip.subsystems systemName with
  | none => (gs, [])
  | some system =>
    let p := max 0 (min 100 power)
    ({ gs with
        playerShip := { gs.playerShip with
          subsystems := setSubsystem gs.playerShip.subsystems systemName
            { system with power := p } } },
      [Event.powerChanged systemName p])

/-- GameState.fireWeapon (state.js 165-221).  The Math.random() draws of the
damage pipeline are passed as sysHit / sysIdx; returns
(result, state, events). -/
def fireWeapon (gs : GameState) (wtype : String) (targetId : Option String)
    (sysHit : Bool) (sysIdx : Fin 4) : Bool × GameState × List Event :=
  let ship := gs.playerShip
  let weapons := ship.subsystems.weapons
  if weapons.hp ≤ 0 ∨ weapons.power ≤ 0 then
    let p := addCommsMessage gs "SYSTEM" "Weapons offline!" "alert"
    (false, p.1, p.2)
  else
    let weaponEff := weapons.hp / 100 * (weapons.power / 100)
    if wtype = "phaser" then
      match getShipOpt gs (targetId <|> gs.currentTarget) with
      | none =>
        let p := addCommsMessage gs "SYSTEM" "No target locked!" "alert"
        (false, p.1, p.2)
      | some target =>
        if hypotGt (target.x - ship.x) (target.y - ship.y) 500 then
          let p := addCommsMessage gs "SYSTEM" "Target out of phaser range!" "alert"
          (false, p.1, p.2)
        else
          let beam : Beam := ⟨ship.x, ship.y, target.x, target.y, 15⟩
          let gs1 := { gs with phaserBeams := gs.phaserBeams ++ [beam] }
          let damage := 15 * weaponEff
          let p := damageShip gs1 target damage sysHit sysIdx
          (true, p.1, p.2 ++ [Event.weaponFired "phaser"])
    else if wtype = "torpedo" then
      let proj : Projectile :=
        { ptype := "torpedo", x := ship.x, y := ship.y, heading := ship.heading,
          velocity := 12, damage := 30 * weaponEff, sourceId := "player",
          targetId := targetId <|> gs.currentTarget, lifetime := 300, size := 8 }
      (true, { gs with projectiles := gs.projectiles ++ [proj] },
        [Event.weaponFired "torpedo"])
    else (false, gs, [])

/-! ## Simulation engine (simulation.js) -/

/-- Simulation.updateNPCAI (simulation.js 111-148): the per-faction AI state
machine.  Distance comparisons through Math.hypot are embedded via squared
distances. -/
def updateNPCAI (player : Ship) (ship : Ship) : Ship :=
  let dx := player.x - ship.x
  let dy := player.y - ship.y
  if ship.faction = "friendly" then
    if hypotGt dx dy 500 then
      { ship with aiState := "approach", target := some "player" }
    else { ship with aiState := "patrol" }
  else if ship.faction = "neutral" then
    { ship with aiState := "patrol" }
  else if ship.faction = "hostile" then
    let hullPercent := ship.hull / ship.maxHull
    if hullPercent < 0.3 then
      { ship with aiState := "flee" }
    else if hypotLt dx dy 800 then
      { ship with aiState := "attack", target := some "player" }
    else if hypotLt dx dy 1500 then
      { ship with aiState := "approach", target := some "player" }
    else { ship with aiState := "patrol" }
  else ship

/-- Simulation.npcFireAtPlayer (simulation.js 236-258): returns unchanged
state when weapon effectiveness is <= 0 or the player is 400 or more units
away, otherwise pushes a beam and applies 10 * effectiveness damage to the
player through the shared damage pipeline. -/
def npcFireAtPlayer (gs : GameState) (ship : Ship) (sysHit : Bool)
    (sysIdx : Fin 4) : GameState × List Event :=
  let weaponEffectiveness := effectiveness ship.subsystems.weapons
  if weaponEffectiveness ≤ 0 then (gs, [])
  else
    let player := gs.playerShip
    if hypotLt (player.x - ship.x) (player.y - ship.y) 400 then
      let beam : Beam := ⟨ship.x, ship.y, player.x, player.y, 15⟩
      let gs1 := { gs with phaserBeams := gs.phaserBeams ++ [beam] }
      let damage := 10 * weaponEffectiveness
      damageShip gs1 player damage sysHit sysIdx
    else (gs, [])

/-- The per-tick random draws consumed by one moveNPCShip call. -/
structure NpcRand where
  fireRoll : Bool
  sysHit : Bool
  sysIdx : Fin 4

/-- Simulation.moveNPCShip (simulation.js 151-233).  fireRoll embeds the
Math.random() < 0.02 draw of the attack state.  Returns none exactly when
the JS code would throw: a patrol state with a nonempty route but a patrol
index outside the array (undefined.x).  The result is the updated world
(beams, player damage), the mutated NPC ship, and the emitted events. -/
def moveNPCShip (T : Trig) (r : NpcRand) (gs : GameState) (ship : Ship) :
    Option (GameState × Ship × List Event) :=
  let engineEffectiveness := effectiveness ship.subsystems.engines
  let step : Option (GameState × Ship × Option (ℚ × ℚ) × List Event) :=
    if ship.aiState = "patrol" then
      if ship.patrolPoints.length > 0 then
        match ship.patrolPoints[ship.patrolIndex]? with
        | none => none
        | some point =>
          let ship1 :=
            if hypotLt (point.1 - ship.x) (point.2 - ship.y) 30 then
              { ship with patrolIndex := (ship.patrolIndex + 1) % ship.patrolPoints.length }
            else ship
          let ship2 := { ship1 with
            velocity := ship1.maxVelocity * 0.5 * engineEffectiveness }
          some (gs, ship2, some point, [])
      else
        some (gs, { ship with velocity := 0 }, none, [])
    else if ship.aiState = "approach" then
      if ship.target = some "player" then
        let p := gs.playerShip
        some (gs, { ship with velocity := ship.maxVelocity * 0.8 * engineEffectiveness },
          some (p.x, p.y), [])
      else some (gs, ship, none, [])
    else if ship.aiState = "attack" then
      if ship.target = some "player" then
        let p := gs.playerShip
        let ship1 := { ship with velocity := ship.maxVelocity * engineEffectiveness }
        if hypotLt (p.x - ship1.x) (p.y - ship1.y) 400 ∧ r.fireRoll then
          let q := npcFireAtPlayer gs ship1 r.sysHit r.sysIdx
          some (q.1, ship1, some (p.x, p.y), q.2)
        else some (gs, ship1, some (p.x, p.y), [])
      else some (gs, ship, none, [])
    else if ship.aiState = "flee" then
      let p := gs.playerShip
      let angle := T.atan2Rad (ship.y - p.y) (ship.x - p.x)
      let tx := ship.x + T.cosRad angle * 500
      let ty := ship.y + T.sinRad angle * 500
      some (gs, { ship with velocity := ship.maxVelocity * engineEffectiveness },
        some (tx, ty), [])
    else some (gs, ship, none, [])
  match step with
  | none => none
  | some (gs1, ship1, tgt, evs) =>
    let ship2 :=
      match tgt with
      | some (tx, ty) =>
        let targetAngle := T.atan2Deg (ty - ship1.y) (tx - ship1.x)
        let turnSpeed := ship1.turnRate * engineEffectiveness
        { ship1 with heading := steerHeading ship1.heading targetAngle turnSpeed }
      | none => ship1
    let ship3 := { ship2 with
      x := ship2.x + T.cosDeg ship2.heading * ship2.velocity
      y := ship2.y + T.sinDeg ship2.heading * ship2.velocity }
    some (gs1, ship3, evs)

/-- The position/lifetime update of one projectile (simulation.js 265-270). -/
def moveProjectile (T : Trig) (p : Projectile) : Projectile :=
  { p with
    x := p.x + T.cosDeg p.heading * p.velocity
    y := p.y + T.sinDeg p.heading * p.velocity
    lifetime := p.lifetime - 1 }

/-- The candidate ships a projectile is collision-checked against
(simulation.js 276): all NPCs for player projectiles, the player otherwise. -/
def projTargets (gs : GameState) (p : Projectile) : List Ship :=
  if p.sourceId = "player" then gs.ships else [gs.playerShip]

/-- The collision predicate dist < target.size + proj.size
(simulation.js 279-280). -/
def projHits (p : Projectile) (t : Ship) : Bool :=
  hypotLt (t.x - p.x) (t.y - p.y) (t.size + p.size)

/-- The body of the per-projectile loop of Simulation.updateProjectiles
(simulation.js 263-291): move, decrement lifetime, damage the first
colliding candidate (break), then remove the projectile when it hit or its
lifetime expired.  Returns (state, surviving projectile if kept, events). -/
def stepProjectile (T : Trig) (gs : GameState) (p : Projectile) (sysHit : Bool)
    (sysIdx : Fin 4) : GameState × Option Projectile × List Event :=
  let p1 := moveProjectile T p
  match (projTargets gs p1).find? (projHits p1) with
  | some t =>
    let q := damageShip gs t p1.damage sysHit sysIdx
    (q.1, none, q.2)
  | none =>
    if p1.lifetime ≤ 0 then (gs, none, []) else (gs, some p1, [])

/-- Simulation.updateProjectiles iterates the array from the last index down
to 0, splicing out removed projectiles; processing the reversed list and
appending survivors on the right reproduces that order.  Each projectile
consumes one random draw from the supplied list. -/
def stepProjectilesRev (T : Trig) :
    GameState → List Projectile → List (Bool × Fin 4) →
      GameState × List Projectile × List Event
  | gs, [], _ => (gs, [], [])
  | gs, p :: rest, rnds =>
    let d := rnds.headD (false, 0)
    let q := stepProjectile T gs p d.1 d.2
    let w := stepProjectilesRev T q.1 rest rnds.tail
    (w.1,
      (match q.2.1 with
        | some kept => w.2.1 ++ [kept]
        | none => w.2.1),
      q.2.2 ++ w.2.2)

/-- Simulation.updateProjectiles (simulation.js 261-293). -/
def updateProjectiles (T : Trig) (gs : GameState) (rnds : List (Bool × Fin 4)) :
    GameState × List Event :=
  let w := stepProjectilesRev T gs gs.projectiles.reverse rnds
  ({ w.1 with projectiles := w.2.1 }, w.2.2)

/-- Minimum squared distance from the player to any hostile ship
(simulation.js 319-327); none embeds the Infinity start value surviving when
no hostile exists.  Minimizing squared distances is equivalent to minimizing
hypot values, since squaring is monotone on nonnegative reals. -/
def nearestHostileDistSq (gs : GameState) : Option ℚ :=
  gs.ships.foldl
    (fun acc ship =>
      if ship.faction = "hostile" then
        let d := distSq (ship.x - gs.playerShip.x) (ship.y - gs.playerShip.y)
        some (match acc with
          | none => d
          | some m => min m d)
      else acc)
    none

/-- nearestHostileDistance < c with Infinity for no hostile. -/
def ndLt (d : Option ℚ) (c : ℚ) : Bool :=
  match d with
  | none => false
  | some dsq => sqLt dsq c

/-- nearestHostileDistance > c with Infinity for no hostile. -/
def ndGt (d : Option ℚ) (c : ℚ) : Bool :=
  match d with
  | none => true
  | some dsq => sqGt dsq c

/-- Simulation.checkAlertLevel (simulation.js 318-343). -/
def checkAlertLevel (gs : GameState) : GameState × List Event :=
  let nd := nearestHostileDistSq gs
  if ndLt nd 500 then
    if gs.alertLevel ≠ "red" then setAlertLevel gs "red" else (gs, [])
  else if ndLt nd 1000 then
    if gs.alertLevel ≠ "yellow" ∧ gs.alertLevel ≠ "red" then setAlertLevel gs "yellow"
    else (gs, [])
  else if gs.alertLevel ≠ "normal" ∧ ndGt nd 1500 then setAlertLevel gs "normal"
  else (gs, [])

/-! ## Destruction semantics (claim C2) -/

@[simp]
theorem addCommsMessage_ships (gs : GameState) (a b c : String) :
    (addCommsMessage gs a b c).1.ships = gs.ships := by
  simp [addCommsMessage]

@[simp]
theorem addCommsMessage_playerShip (gs : GameState) (a b c : String) :
    (addCommsMessage gs a b c).1.playerShip = gs.playerShip := by
  simp [addCommsMessage]

@[simp]
theorem addCommsMessage_phaserBeams (gs : GameState) (a b c : String) :
    (addCommsMessage gs a b c).1.phaserBeams = gs.phaserBeams := by
  simp [addCommsMessage]

@[simp]
theorem addCommsMessage_projectiles (gs : GameState) (a b c : String) :
    (addCommsMessage gs a b c).1.projectiles = gs.projectiles := by
  simp [addCommsMessage]

@[simp]
theorem addCommsMessage_alertLevel (gs : GameState) (a b c : String) :
    (addCommsMessage gs a b c).1.alertLevel = gs.alertLevel := by
  simp [addCommsMessage]

@[simp]
theorem addCommsMessage_currentTarget (gs : GameState) (a b c : String) :
    (addCommsMessage gs a b c).1.currentTarget = gs.currentTarget := by
  simp [addCommsMessage]

@[simp]
theorem addCommsMessage_events (gs : GameState) (a b c : String) :
    (addCommsMessage gs a b c).2 = [Event.commsMessage a b c] := rfl

theorem applyDamage_id (ship : Ship) (damage : ℚ) (sysHit : Bool) (sysIdx : Fin 4) :
    (applyDamage ship damage sysHit sysIdx).id = ship.id := by
  simp only [applyDamage]
  split <;> split <;> rfl

theorem countP_updateFirstShip (l : List Ship) (i : String) (s2 : Ship)
    (h : s2.id = i) :
    (updateFirstShip l i s2).countP (fun s => s.id = i) =
      l.countP (fun s => s.id = i) := by
  induction l with
  | nil => rfl
  | cons s rest ih =>
    by_cases hs : s.id = i
    · simp [updateFirstShip, hs, h, List.countP_cons]
    · simp [updateFirstShip, hs, List.countP_cons, ih]

theorem removeFirstShip_countP_one (l : List Ship) (i : String)
    (h : l.countP (fun s => s.id = i) = 1) :
    ∃ s rest, removeFirstShip l i = (some s, rest) ∧
      rest.countP (fun s => s.id = i) = 0 := by
  induction l with
  | nil => simp at h
  | cons s rest ih =>
    by_cases hs : s.id = i
    · refine ⟨s, rest, by simp [removeFirstShip, hs], ?_⟩
      simpa [List.countP_cons, hs] using h
    · obtain ⟨t, rest2, h1, h2⟩ := ih (by simpa [List.countP_cons, hs] using h)
      exact ⟨t, s :: rest2, by simp [removeFirstShip, hs, h1], by simp [List.countP_cons, hs, h2]⟩

theorem removeShip_of_countP_one (gs : GameState) (i : String)
    (h : gs.ships.countP (fun s => s.id = i) = 1) :
    (∀ s ∈ (removeShip gs i).1.ships, ¬ s.id = i) ∧
    (removeShip gs i).2.countP Event.isShipDestroyed = 1 := by
  obtain ⟨t, rest, h1, h2⟩ := removeFirstShip_countP_one gs.ships i h
  rw [removeShip, h1]
  constructor
  · intro s hs
    have := List.countP_eq_zero.mp h2 s hs
    simpa using this
  · simp [List.countP_cons, Event.isShipDestroyed]

/-- Claim C2: when a ship reaches 0 hull in damageShip, an NPC is removed
from the ship list on the same tick with the ship-destroyed event firing
exactly once, while the player ship receives a terminal playerDestroyed
event but persists and stays addressable via getShip. -/
theorem C2_destruction_semantics (gs : GameState) (ship : Ship) (damage : ℚ)
    (sysHit : Bool) (sysIdx : Fin 4) :
    (ship.id ≠ "player" →
      gs.ships.countP (fun s => s.id = ship.id) = 1 →
      (applyDamage ship damage sysHit sysIdx).hull ≤ 0 →
      (∀ s ∈ (damageShip gs ship damage sysHit sysIdx).1.ships, s.id ≠ ship.id) ∧
      (damageShip gs ship damage sysHit sysIdx).2.countP Event.isShipDestroyed = 1) ∧
    (ship = gs.playerShip →
      ship.id = "player" →
      (applyDamage ship damage sysHit sysIdx).hull ≤ 0 →
      getShip (damageShip gs ship damage sysHit sysIdx).1 "player" =
        some (applyDamage ship damage sysHit sysIdx) ∧
      (damageShip gs ship damage sysHit sysIdx).2.countP Event.isPlayerDestroyed = 1) := by
  constructor
  · intro hnp hcount hdead
    have hid2 := applyDamage_id ship damage sysHit sysIdx
    have hcnt2 : (updateFirstShip gs.ships ship.id
        (applyDamage ship damage sysHit sysIdx)).countP (fun s => s.id = ship.id) = 1 := by
      rw [countP_updateFirstShip _ _ _ hid2]
      exact hcount
    have hrem := removeShip_of_countP_one
      { gs with ships := updateFirstShip gs.ships ship.id (applyDamage ship damage sysHit sysIdx) }
      ship.id hcnt2
    have hc1 : ¬(damage - shieldAbsorbOf ship damage > 5 ∧ sysHit = true ∧
        ship.id = "player") := by
      simp [hnp]
    simp only [damageShip, writeShip, if_neg hc1, if_neg hnp, if_pos hdead, if_pos hnp]
    constructor
    · intro s hs
      simp only [addCommsMessage_ships] at hs
      exact hrem.1 s hs
    · simp only [addCommsMessage_events, List.countP_append, List.countP_cons]
      simp [Event.isShipDestroyed, hrem.2]
  · intro hps hpid hdead
    have hnn : ¬(ship.id ≠ "player") := by simp [hpid]
    by_cases hc : damage - shieldAbsorbOf ship damage > 5 ∧ sysHit = true ∧
        ship.id = "player"
    · simp only [damageShip, writeShip, if_pos hpid, if_pos hc, if_pos hdead, if_neg hnn]
      constructor
      · simp [getShip]
      · simp [List.countP_append, List.countP_cons, Event.isPlayerDestroyed]
    · simp only [damageShip, writeShip, if_pos hpid, if_neg hc, if_pos hdead, if_neg hnn]
      constructor
      · simp [getShip]
      · simp [List.countP_append, List.countP_cons, Event.isPlayerDestroyed]

/-- A small concrete world used to instantiate witnesses: the player ship and
one hostile NPC with 10 hull and depleted shields. -/
def demoShip : Ship :=
  { id := "npc1", name := "IKS Vengeance", faction := "hostile", x := 100, y := 0,
    heading := 0, velocity := 0, maxVelocity := 7, turnRate := 2,
    subsystems := createSubsystems, hull := 10, maxHull := 100,
    shieldStrength := 0, maxShieldStrength := 100, aiState := "patrol",
    patrolPoints := [], patrolIndex := 0, target := none, size := 20 }

/-- The player ship of the demo world (mirrors the reset values of
state.js 70-82). -/
def demoPlayer : Ship :=
  { id := "player", name := "USS Endeavour", faction := "friendly", x := 0, y := 0,
    heading := 0, velocity := 0, maxVelocity := 8, turnRate := 3,
    subsystems := createSubsystems, hull := 100, maxHull := 100,
    shieldStrength := 100, maxShieldStrength := 100, aiState := "patrol",
    patrolPoints := [], patrolIndex := 0, target := none, size := 25 }

/-- The demo world state. -/
def demoState : GameState :=
  { playerShip := demoPlayer, ships := [demoShip], projectiles := [],
    phaserBeams := [], commsLog := [], currentTarget := none,
    alertLevel := "normal", waypoint := none, repairCooldowns := [], gameTime := 0 }

/-- Witness for C2 at concrete inputs: 50 damage destroys the demo NPC
(removed, one shipDestroyed event); 200 damage destroys the player
(playerDestroyed emitted once, ship still addressable). -/
theorem C2_destruction_semantics_witness :
    ((∀ s ∈ (damageShip demoState demoShip 50 false 0).1.ships, s.id ≠ demoShip.id) ∧
      (damageShip demoState demoShip 50 false 0).2.countP Event.isShipDestroyed = 1) ∧
    (getShip (damageShip demoState demoPlayer 200 false 0).1 "player" =
        some (applyDamage demoPlayer 200 false 0) ∧
      (damageShip demoState demoPlayer 200 false 0).2.countP Event.isPlayerDestroyed = 1) := by
  constructor
  · exact (C2_destruction_semantics demoState demoShip 50 false 0).1
      (by simp [demoShip]) (by simp [demoState, demoShip])
      (by norm_num [applyDamage, shieldAbsorbOf, demoShip, createSubsystems])
  · exact (C2_destruction_semantics demoState demoPlayer 200 false 0).2
      (by rfl) (by rfl)
      (by norm_num [applyDamage, shieldAbsorbOf, demoPlayer, createSubsystems])

/-! ## Claim C4: low-hull hostiles always flee -/

/-- Claim C4: every hostile NPC ship with hull/maxHull < 0.3 is put into the
flee state by the next AI evaluation, regardless of its distance to the
player (flee overrides attack, approach and patrol).  The 0 < maxHull
hypothesis keeps the rational division faithful to the JS computation,
which yields NaN for maxHull = 0 and then never takes the flee branch. -/
theorem C4_low_hull_hostile_flees (player ship : Ship)
    (hf : ship.faction = "hostile") (hm : 0 < ship.maxHull)
    (hh : ship.hull / ship.maxHull < 0.3) :
    (updateNPCAI player ship).aiState = "flee" := by
  simp [updateNPCAI, hf, hh]

/-- Witness for C4: a hostile ship at 20/100 hull, far from the player,
flees. -/
theorem C4_low_hull_hostile_flees_witness :
    (updateNPCAI demoPlayer { demoShip with hull := 20, x := 5000 }).aiState = "flee" := by
  exact C4_low_hull_hostile_flees demoPlayer { demoShip with hull := 20, x := 5000 }
    (by norm_num [demoShip]) (by norm_num [demoShip]) (by norm_num [demoShip])

/-! ## Claim C5: alert automation -/

theorem setAlertLevel_changed (gs : GameState) (l : String)
    (h : gs.alertLevel ≠ l) : (setAlertLevel gs l).1.alertLevel = l := by
  simp [setAlertLevel, h]

theorem setAlertLevel_same (gs : GameState) (l : String)
    (h : gs.alertLevel = l) : setAlertLevel gs l = (gs, []) := by
  simp [setAlertLevel, h]

/-- Claim C5: each tick the alert check escalates to red when the minimum
hostile distance is below 500, to yellow when below 1000 without ever
downgrading red to yellow automatically, and returns to normal only when
that distance is above 1500; alert changes are idempotent (an unchanged
level produces no event and no state change). -/
theorem C5_alert_automation (gs : GameState) :
    (ndLt (nearestHostileDistSq gs) 500 = true →
      (checkAlertLevel gs).1.alertLevel = "red") ∧
    (gs.alertLevel = "red" → (checkAlertLevel gs).1.alertLevel ≠ "yellow") ∧
    (ndLt (nearestHostileDistSq gs) 500 = false →
      ndLt (nearestHostileDistSq gs) 1000 = true →
      gs.alertLevel ≠ "red" →
      (checkAlertLevel gs).1.alertLevel = "yellow") ∧
    ((checkAlertLevel gs).1.alertLevel = "normal" → gs.alertLevel ≠ "normal" →
      ndGt (nearestHostileDistSq gs) 1500 = true) ∧
    ((checkAlertLevel gs).1.alertLevel = gs.alertLevel →
      checkAlertLevel gs = (gs, [])) ∧
    (∀ l, gs.alertLevel = l → setAlertLevel gs l = (gs, [])) := by
  refine ⟨?_, ?_, ?_, ?_, ?_, fun l h => setAlertLevel_same gs l h⟩
  · intro h
    by_cases hr : gs.alertLevel = "red"
    · simp [checkAlertLevel, h, hr]
    · simp [checkAlertLevel, h, hr, setAlertLevel_changed gs "red" hr]
  · intro hr
    have hch : (setAlertLevel gs "normal").1.alertLevel = "normal" :=
      setAlertLevel_changed gs "normal" (by simp [hr])
    simp only [checkAlertLevel]
    split_ifs <;> simp_all
  · intro h1 h2 h3
    by_cases hy : gs.alertLevel = "yellow"
    · simp [checkAlertLevel, h1, h2, hy]
    · simp [checkAlertLevel, h1, h2, hy, h3, setAlertLevel_changed gs "yellow" hy]
  · intro hres hprev
    simp only [checkAlertLevel] at hres
    split_ifs at hres with h1 h2 h3 h4 h5
    · rw [setAlertLevel_changed gs "red" h2] at hres
      exact absurd hres (by simp)
    · exact absurd hres hprev
    · rw [setAlertLevel_changed gs "yellow" h4.1] at hres
      exact absurd hres (by simp)
    · exact absurd hres hprev
    · exact h5.2
    · exact absurd hres hprev
  · intro hres
    simp only [checkAlertLevel] at hres ⊢
    split_ifs at hres ⊢ with h1 h2 h3 h4 h5
    · rw [setAlertLevel_changed gs "red" h2] at hres
      exact absurd hres.symm h2
    · rfl
    · rw [setAlertLevel_changed gs "yellow" h4.1] at hres
      exact absurd hres.symm h4.1
    · rfl
    · rw [setAlertLevel_changed gs "normal" h5.1] at hres
      exact absurd hres.symm h5.1
    · rfl

/-- Witness for C5: in the demo world a hostile sits 100 units away, so the
alert escalates to red; and re-setting the unchanged level is a no-op. -/
theorem C5_alert_automation_witness :
    (checkAlertLevel demoState).1.alertLevel = "red" ∧
    setAlertLevel demoState "normal" = (demoState, []) := by
  refine ⟨(C5_alert_automation demoState).1 ?_,
    (C5_alert_automation demoState).2.2.2.2.2 "normal" rfl⟩
  norm_num [nearestHostileDistSq, demoState, demoShip, demoPlayer, ndLt, sqLt, distSq]

/-! ## Claim C7: phaser firing preconditions -/

/-- Claim C7: a phaser fire command fails with no effect on the combat state
(no beam, no damage, ships and projectiles untouched; only the failure
signal is logged) whenever the weapons subsystem has hp <= 0 or power <= 0,
or no target resolves, or the resolved target is more than 500 units away;
each precondition is checked before any effect. -/
theorem C7_phaser_preconditions (gs : GameState) (targetId : Option String)
    (sysHit : Bool) (sysIdx : Fin 4) :
    ((gs.playerShip.subsystems.weapons.hp ≤ 0 ∨
        gs.playerShip.subsystems.weapons.power ≤ 0) →
      (fireWeapon gs "phaser" targetId sysHit sysIdx).1 = false ∧
      (fireWeapon gs "phaser" targetId sysHit sysIdx).2.1.ships = gs.ships ∧
      (fireWeapon gs "phaser" targetId sysHit sysIdx).2.1.playerShip = gs.playerShip ∧
      (fireWeapon gs "phaser" targetId sysHit sysIdx).2.1.phaserBeams = gs.phaserBeams ∧
      (fireWeapon gs "phaser" targetId sysHit sysIdx).2.1.projectiles = gs.projectiles) ∧
    (¬(gs.playerShip.subsystems.weapons.hp ≤ 0 ∨
        gs.playerShip.subsystems.weapons.power ≤ 0) →
      getShipOpt gs (targetId <|> gs.currentTarget) = none →
      (fireWeapon gs "phaser" targetId sysHit sysIdx).1 = false ∧
      (fireWeapon gs "phaser" targetId sysHit sysIdx).2.1.ships = gs.ships ∧
      (fireWeapon gs "phaser" targetId sysHit sysIdx).2.1.playerShip = gs.playerShip ∧
      (fireWeapon gs "phaser" targetId sysHit sysIdx).2.1.phaserBeams = gs.phaserBeams ∧
      (fireWeapon gs "phaser" targetId sysHit sysIdx).2.1.projectiles = gs.projectiles) ∧
    (¬(gs.playerShip.subsystems.weapons.hp ≤ 0 ∨
        gs.playerShip.subsystems.weapons.power ≤ 0) →
      ∀ t, getShipOpt gs (targetId <|> gs.currentTarget) = some t →
      hypotGt (t.x - gs.playerShip.x) (t.y - gs.playerShip.y) 500 = true →
      (fireWeapon gs "phaser" targetId sysHit sysIdx).1 = false ∧
      (fireWeapon gs "phaser" targetId sysHit sysIdx).2.1.ships = gs.ships ∧
      (fireWeapon gs "phaser" targetId sysHit sysIdx).2.1.playerShip = gs.playerShip ∧
      (fireWeapon gs "phaser" targetId sysHit sysIdx).2.1.phaserBeams = gs.phaserBeams ∧
      (fireWeapon gs "phaser" targetId sysHit sysIdx).2.1.projectiles = gs.projectiles) := by
  refine ⟨?_, ?_, ?_⟩
  · intro h
    simp [fireWeapon, h]
  · intro h1 h2
    simp [fireWeapon, h1, h2]
  · intro h1 t h2 h3
    simp [fireWeapon, h1, h2, h3]

/-- Witness for C7 at concrete inputs: offline weapons, a missing target,
and a target at distance 600 all fail without touching the combat state. -/
theorem C7_phaser_preconditions_witness :
    ((fireWeapon { demoState with playerShip := { demoPlayer with
        subsystems := { createSubsystems with
          weapons := ⟨0, 100, 50⟩ } } } "phaser" (some "npc1") false 0).1 = false ∧
      (fireWeapon demoState "phaser" none false 0).1 = false ∧
      (fireWeapon demoState "phaser" none false 0).2.1.phaserBeams = demoState.phaserBeams ∧
      (fireWeapon { demoState with ships := [{ demoShip with x := 600 }] }
        "phaser" (some "npc1") false 0).1 = false ∧
      (fireWeapon { demoState with ships := [{ demoShip with x := 600 }] }
        "phaser" (some "npc1") false 0).2.1.ships = [{ demoShip with x := 600 }]) := by
  refine ⟨?_, ?_, ?_, ?_, ?_⟩
  · exact ((C7_phaser_preconditions { demoState with playerShip := { demoPlayer with
      subsystems := { createSubsystems with weapons := ⟨0, 100, 50⟩ } } }
      (some "npc1") false 0).1 (by norm_num [createSubsystems])).1
  · exact ((C7_phaser_preconditions demoState none false 0).2.1
      (by norm_num [demoState, demoPlayer, createSubsystems])
      (by simp [getShipOpt, demoState])).1
  · exact ((C7_phaser_preconditions demoState none false 0).2.1
      (by norm_num [demoState, demoPlayer, createSubsystems])
      (by simp [getShipOpt, demoState])).2.2.2.1
  · exact ((C7_phaser_preconditions { demoState with ships := [{ demoShip with x := 600 }] }
      (some "npc1") false 0).2.2
      (by norm_num [demoState, demoPlayer, createSubsystems])
      { demoShip with x := 600 }
      (by simp [getShipOpt, getShip, demoState, demoShip])
      (by norm_num [hypotGt, sqGt, distSq, demoState, demoShip, demoPlayer])).1
  · exact ((C7_phaser_preconditions { demoState with ships := [{ demoShip with x := 600 }] }
      (some "npc1") false 0).2.2
      (by norm_num [demoState, demoPlayer, createSubsystems])
      { demoShip with x := 600 }
      (by simp [getShipOpt, getShip, demoState, demoShip])
      (by norm_num [hypotGt, sqGt, distSq, demoState, demoShip, demoPlayer])).2.1

/-! ## Claim C8: unknown subsystem / weapon names -/

/-- Claim C8 (code bug): setPower with an unknown subsystem name and
fireWeapon with an unknown weapon kind degrade to a no-op / failure, but
repairSubsystem with an unknown subsystem name reads .hp of undefined and
throws a TypeError (embedded as none) instead of degrading to a failure
result, contradicting the intended error-handling design. -/
theorem C8_unknown_name_handling :
    repairSubsystem demoState "warp" = none ∧
    setPower demoState "warp" 75 = (demoState, []) ∧
    (fireWeapon demoState "disruptor" none false 0).1 = false ∧
    (fireWeapon demoState "disruptor" none false 0).2.1 = demoState := by
  refine ⟨?_, ?_, ?_, ?_⟩
  · simp [repairSubsystem, cooldownOf, getSubsystem, demoState, demoPlayer,
      createSubsystems]
  · simp [setPower, getSubsystem, demoState, demoPlayer, createSubsystems]
  · decide
  · decide

/-! ## Claim C3: projectile removal semantics -/

theorem removeShip_countP_isShipDamaged (gs : GameState) (i : String) :
    (removeShip gs i).2.countP Event.isShipDamaged = 0 := by
  simp only [removeShip]
  split <;> simp [Event.isShipDamaged]

theorem damageShip_countP_isShipDamaged (gs : GameState) (ship : Ship)
    (damage : ℚ) (sysHit : Bool) (sysIdx : Fin 4) :
    (damageShip gs ship damage sysHit sysIdx).2.countP Event.isShipDamaged = 1 := by
  simp only [damageShip]
  split_ifs <;>
    simp [List.countP_append, List.countP_cons, Event.isShipDamaged,
      removeShip_countP_isShipDamaged]

/-- Claim C3: each tick processes every live projectile exactly once: it is
removingly resolved either on its first qualifying collision (damaging only
that single ship, through the shared damage pipeline) or on its lifetime
counter reaching 0, never both and never neither; a projectile never
damages two ships in the same tick.  stepProjectile is the loop body of
updateProjectiles applied to one projectile. -/
theorem C3_projectile_removed_once (T : Trig) (gs : GameState) (p : Projectile)
    (sysHit : Bool) (sysIdx : Fin 4) :
    ((stepProjectile T gs p sysHit sysIdx).2.1 = none ↔
      ((projTargets gs (moveProjectile T p)).find? (projHits (moveProjectile T p)) ≠ none ∨
        (moveProjectile T p).lifetime ≤ 0)) ∧
    ((stepProjectile T gs p sysHit sysIdx).2.1 ≠ none →
      (stepProjectile T gs p sysHit sysIdx).2.1 = some (moveProjectile T p)) ∧
    ((stepProjectile T gs p sysHit sysIdx).2.2.countP Event.isShipDamaged ≤ 1) ∧
    (∀ t, (projTargets gs (moveProjectile T p)).find? (projHits (moveProjectile T p)) = some t →
      stepProjectile T gs p sysHit sysIdx =
        ((damageShip gs t (moveProjectile T p).damage sysHit sysIdx).1, none,
          (damageShip gs t (moveProjectile T p).damage sysHit sysIdx).2)) ∧
    (∀ t, (projTargets gs (moveProjectile T p)).find? (projHits (moveProjectile T p)) = some t →
      projHits (moveProjectile T p) t = true) := by
  refine ⟨?_, ?_, ?_, ?_, fun t ht => List.find?_some ht⟩
  · rcases hf : (projTargets gs (moveProjectile T p)).find? (projHits (moveProjectile T p))
      with _ | t
    · simp only [stepProjectile, hf]
      by_cases hl : (moveProjectile T p).lifetime ≤ 0
      · simp [hl]
      · simp [hl]
    · simp [stepProjectile, hf]
  · rcases hf : (projTargets gs (moveProjectile T p)).find? (projHits (moveProjectile T p))
      with _ | t
    · simp only [stepProjectile, hf]
      by_cases hl : (moveProjectile T p).lifetime ≤ 0
      · simp [hl]
      · simp [hl]
    · simp [stepProjectile, hf]
  · rcases hf : (projTargets gs (moveProjectile T p)).find? (projHits (moveProjectile T p))
      with _ | t
    · simp only [stepProjectile, hf]
      by_cases hl : (moveProjectile T p).lifetime ≤ 0
      · simp [hl]
      · simp [hl]
    · simp [stepProjectile, hf, damageShip_countP_isShipDamaged]
  · intro t ht
    simp [stepProjectile, ht]

/-- A demo torpedo in flight, one tick away from hitting the demo NPC. -/
def demoProjectile : Projectile :=
  { ptype := "torpedo", x := 90, y := 0, heading := 0, velocity := 12, damage := 30,
    sourceId := "player", targetId := some "npc1", lifetime := 300, size := 8 }

/-- Witness for C3 at concrete inputs: the demo torpedo collides with the
demo NPC (first qualifying candidate) and is removed that tick, resolving
through the damage pipeline. -/
theorem C3_projectile_removed_once_witness :
    (stepProjectile constTrig demoState demoProjectile false 0).2.1 = none ∧
    stepProjectile constTrig demoState demoProjectile false 0 =
      ((damageShip demoState demoShip (moveProjectile constTrig demoProjectile).damage
          false 0).1,
        none,
        (damageShip demoState demoShip (moveProjectile constTrig demoProjectile).damage
          false 0).2) := by
  have hp1 : projHits (moveProjectile constTrig demoProjectile) demoShip = true := by
    norm_num [projHits, hypotLt, sqLt, distSq, moveProjectile, demoProjectile,
      constTrig, demoShip]
  have hsrc : (moveProjectile constTrig demoProjectile).sourceId = "player" := rfl
  have hf : (projTargets demoState (moveProjectile constTrig demoProjectile)).find?
      (projHits (moveProjectile constTrig demoProjectile)) = some demoShip := by
    simp [projTargets, hsrc, demoState, List.find?_cons_of_pos, hp1]
  constructor
  · exact ((C3_projectile_removed_once constTrig demoState demoProjectile false 0).1).mpr
      (Or.inl (by rw [hf]; simp))
  · exact (C3_projectile_removed_once constTrig demoState demoProjectile false 0).2.2.2.1
      demoShip hf

/-! ## Claim C9: velocity bound -/

/-- In every recognized AI state, a successful moveNPCShip call leaves the
NPC velocity at maxVelocity times one of the speed fractions 0, 0.5, 0.8, 1
times engine effectiveness. -/
theorem moveNPCShip_velocity (T : Trig) (r : NpcRand) (gs : GameState) (ship : Ship)
    (out : GameState × Ship × List Event)
    (hout : moveNPCShip T r gs ship = some out)
    (hstate : ship.aiState = "patrol" ∨
      (ship.aiState = "approach" ∧ ship.target = some "player") ∨
      (ship.aiState = "attack" ∧ ship.target = some "player") ∨
      ship.aiState = "flee") :
    ∃ k : ℚ, (k = 0 ∨ k = 0.5 ∨ k = 0.8 ∨ k = 1) ∧
      out.2.1.velocity = ship.maxVelocity * k * effectiveness ship.subsystems.engines := by
  rcases hstate with h | ⟨h, ht⟩ | ⟨h, ht⟩ | h
  · by_cases hlen : ship.patrolPoints.length > 0
    · rcases hget : ship.patrolPoints[ship.patrolIndex]? with _ | point
      · simp [moveNPCShip, h, hlen, hget] at hout
      · refine ⟨0.5, by norm_num, ?_⟩
        simp only [moveNPCShip] at hout
        simp [h, hlen, hget] at hout
        subst hout
        split <;> simp <;> ring
    · refine ⟨0, by norm_num, ?_⟩
      simp [moveNPCShip, h, hlen] at hout
      subst hout
      simp
  · refine ⟨0.8, by norm_num, ?_⟩
    simp [moveNPCShip, h, ht] at hout
    subst hout
    simp
  · refine ⟨1, by norm_num, ?_⟩
    by_cases hfire : hypotLt (gs.playerShip.x - ship.x) (gs.playerShip.y - ship.y) 400 = true ∧
        r.fireRoll = true
    · simp [moveNPCShip, h, ht, hfire] at hout
      subst hout
      simp <;> ring
    · simp [moveNPCShip, h, ht, hfire] at hout
      subst hout
      simp <;> ring
  · refine ⟨1, by norm_num, ?_⟩
    simp [moveNPCShip, h] at hout
    subst hout
    simp <;> ring

/-- Counterexample to claim C9 as stated: with the player at full throttle
(velocity 4 under 0.5 engine effectiveness), setting engine power to 0
leaves velocity at 4 while maxVelocity * engine effectiveness drops to 0 —
the invariant is not preserved by engine power changes, because velocity is
never re-clamped. -/
theorem C9_power_change_counterexample :
    (setPower (setThrottle demoState 100) "engines" 0).1.playerShip.velocity >
      (setPower (setThrottle demoState 100) "engines" 0).1.playerShip.maxVelocity *
        effectiveness
          (setPower (setThrottle demoState 100) "engines" 0).1.playerShip.subsystems.engines := by
  simp [setPower, setThrottle, getSubsystem, setSubsystem, effectiveness,
    demoState, demoPlayer, createSubsystems] <;> norm_num

/-- Claim C9 (amended): velocity ≤ maxVelocity * engine effectiveness holds
right after a throttle command with a percentage in [0,100] and right after
an NPC movement update in a recognized AI state (both recompute velocity
from the current effectiveness); it is not preserved by later reductions of
engine power or hp, which leave velocity unchanged (see the
counterexample). -/
theorem C9_velocity_bound_amended (gs : GameState) (percent : ℚ) (T : Trig)
    (r : NpcRand) (ship : Ship) :
    (0 ≤ percent → percent ≤ 100 → 0 ≤ gs.playerShip.maxVelocity →
      0 ≤ gs.playerShip.subsystems.engines.hp →
      0 ≤ gs.playerShip.subsystems.engines.power →
      (setThrottle gs percent).playerShip.velocity ≤
        gs.playerShip.maxVelocity * effectiveness gs.playerShip.subsystems.engines) ∧
    (∀ out, moveNPCShip T r gs ship = some out →
      0 ≤ ship.maxVelocity → 0 ≤ ship.subsystems.engines.hp →
      0 ≤ ship.subsystems.engines.power →
      (ship.aiState = "patrol" ∨
        (ship.aiState = "approach" ∧ ship.target = some "player") ∨
        (ship.aiState = "attack" ∧ ship.target = some "player") ∨
        ship.aiState = "flee") →
      out.2.1.velocity ≤ ship.maxVelocity * effectiveness ship.subsystems.engines) := by
  constructor
  · intro h0 h100 hmv hhp hpw
    simp only [setThrottle, effectiveness]
    have heff : 0 ≤ gs.playerShip.subsystems.engines.hp / 100 *
        (gs.playerShip.subsystems.engines.power / 100) := by positivity
    have hbase : 0 ≤ gs.playerShip.maxVelocity *
        (gs.playerShip.subsystems.engines.hp / 100 *
          (gs.playerShip.subsystems.engines.power / 100)) := mul_nonneg hmv heff
    nlinarith [hbase, h100, h0]
  · intro out hout h0 hhp hpw hstate
    obtain ⟨k, hk, hv⟩ := moveNPCShip_velocity T r gs ship out hout hstate
    have heff : 0 ≤ effectiveness ship.subsystems.engines := by
      simp only [effectiveness]; positivity
    have hbase : 0 ≤ ship.maxVelocity * effectiveness ship.subsystems.engines :=
      mul_nonneg h0 heff
    rcases hk with rfl | rfl | rfl | rfl <;> rw [hv] <;> nlinarith [hbase]

/-- Witness for the amended C9 at concrete inputs: a half throttle command
and a patrol-state NPC movement both leave velocity within the bound. -/
theorem C9_velocity_bound_amended_witness :
    ((setThrottle demoState 50).playerShip.velocity ≤
      demoState.playerShip.maxVelocity *
        effectiveness demoState.playerShip.subsystems.engines) ∧
    (moveNPCShip constTrig ⟨false, false, 0⟩ demoState demoShip).elim False
      (fun out => out.2.1.velocity ≤
        demoShip.maxVelocity * effectiveness demoShip.subsystems.engines) := by
  constructor
  · exact (C9_velocity_bound_amended demoState 50 constTrig ⟨false, false, 0⟩ demoShip).1
      (by norm_num) (by norm_num) (by norm_num [demoState, demoPlayer])
      (by norm_num [demoState, demoPlayer, createSubsystems])
      (by norm_num [demoState, demoPlayer, createSubsystems])
  · rcases hmv : moveNPCShip constTrig ⟨false, false, 0⟩ demoState demoShip with _ | out
    · have hsome : (moveNPCShip constTrig ⟨false, false, 0⟩ demoState demoShip).isSome = true := by
        simp [moveNPCShip, demoShip]
      rw [hmv] at hsome
      simp at hsome
    · simp only [Option.elim]
      exact (C9_velocity_bound_amended demoState 50 constTrig ⟨false, false, 0⟩ demoShip).2
        out hmv (by norm_num [demoShip]) (by norm_num [demoShip, createSubsystems])
        (by norm_num [demoShip, createSubsystems]) (Or.inl (by norm_num [demoShip]))

/-! ## Claim C10: NPC phaser attack parameters -/

theorem damageShip_playerShip_eq (gs : GameState) (ship : Ship) (damage : ℚ)
    (sysHit : Bool) (sysIdx : Fin 4) (h : ship.id = "player") :
    (damageShip gs ship damage sysHit sysIdx).1.playerShip =
      applyDamage ship damage sysHit sysIdx := by
  simp only [damageShip, writeShip, h]
  split_ifs <;> simp_all

theorem shipDamaged_mem_damageShip (gs : GameState) (ship : Ship) (damage : ℚ)
    (sysHit : Bool) (sysIdx : Fin 4) :
    Event.shipDamaged ship.id damage ∈ (damageShip gs ship damage sysHit sysIdx).2 := by
  simp only [damageShip]
  split_ifs <;> simp

/-- Claim C10: an NPC phaser attack on the player happens only when the
distance to the player is under 400 units, applies 10 * the firing ship
weapons effectiveness as damage — versus the 15 * effectiveness of the
player phaser — and never happens when the NPC weapons effectiveness is
0 (or below). -/
theorem C10_npc_phaser_attack (gs : GameState) (ship : Ship)
    (targetId : Option String) (sysHit : Bool) (sysIdx : Fin 4) :
    (effectiveness ship.subsystems.weapons ≤ 0 →
      npcFireAtPlayer gs ship sysHit sysIdx = (gs, [])) ∧
    (hypotLt (gs.playerShip.x - ship.x) (gs.playerShip.y - ship.y) 400 = false →
      npcFireAtPlayer gs ship sysHit sysIdx = (gs, [])) ∧
    (0 < effectiveness ship.subsystems.weapons →
      hypotLt (gs.playerShip.x - ship.x) (gs.playerShip.y - ship.y) 400 = true →
      gs.playerShip.id = "player" →
      (npcFireAtPlayer gs ship sysHit sysIdx).1.playerShip =
        applyDamage gs.playerShip (10 * effectiveness ship.subsystems.weapons)
          sysHit sysIdx ∧
      Event.shipDamaged "player" (10 * effectiveness ship.subsystems.weapons) ∈
        (npcFireAtPlayer gs ship sysHit sysIdx).2) ∧
    (¬(gs.playerShip.subsystems.weapons.hp ≤ 0 ∨
        gs.playerShip.subsystems.weapons.power ≤ 0) →
      ∀ t, getShipOpt gs (targetId <|> gs.currentTarget) = some t →
        hypotGt (t.x - gs.playerShip.x) (t.y - gs.playerShip.y) 500 = false →
        Event.shipDamaged t.id
            (15 * (gs.playerShip.subsystems.weapons.hp / 100 *
              (gs.playerShip.subsystems.weapons.power / 100))) ∈
          (fireWeapon gs "phaser" targetId sysHit sysIdx).2.2) := by
  refine ⟨?_, ?_, ?_, ?_⟩
  · intro h
    simp [npcFireAtPlayer, h]
  · intro hd
    by_cases he : effectiveness ship.subsystems.weapons ≤ 0
    · simp [npcFireAtPlayer, he]
    · simp [npcFireAtPlayer, he, hd]
  · intro he hd hid
    have hne : ¬(effectiveness ship.subsystems.weapons ≤ 0) := not_le.mpr he
    constructor
    · simp only [npcFireAtPlayer, if_neg hne, hd, if_pos]
      exact damageShip_playerShip_eq _ gs.playerShip _ sysHit sysIdx hid
    · simp only [npcFireAtPlayer, if_neg hne, hd, if_pos]
      have := shipDamaged_mem_damageShip
        { gs with phaserBeams := gs.phaserBeams ++
            [⟨ship.x, ship.y, gs.playerShip.x, gs.playerShip.y, 15⟩] }
        gs.playerShip (10 * effectiveness ship.subsystems.weapons) sysHit sysIdx
      rw [hid] at this
      exact this
  · intro h1 t ht hdist
    simp only [fireWeapon, if_neg h1]
    simp [ht, hdist, List.mem_append, shipDamaged_mem_damageShip]

/-- Witness for C10 at concrete inputs: the demo hostile 100 units from the
player lands a 10 * 0.5 = 5 damage phaser hit, while the player phaser on
the same geometry deals 15 * 0.5 damage to the NPC. -/
theorem C10_npc_phaser_attack_witness :
    ((npcFireAtPlayer demoState demoShip false 0).1.playerShip =
      applyDamage demoPlayer (10 * effectiveness demoShip.subsystems.weapons) false 0 ∧
    Event.shipDamaged "player" (10 * effectiveness demoShip.subsystems.weapons) ∈
      (npcFireAtPlayer demoState demoShip false 0).2) ∧
    Event.shipDamaged demoShip.id
        (15 * (demoState.playerShip.subsystems.weapons.hp / 100 *
          (demoState.playerShip.subsystems.weapons.power / 100))) ∈
      (fireWeapon demoState "phaser" (some "npc1") false 0).2.2 := by
  constructor
  · exact (C10_npc_phaser_attack demoState demoShip (some "npc1") false 0).2.2.1
      (by norm_num [effectiveness, demoShip, createSubsystems])
      (by norm_num [hypotLt, sqLt, distSq, demoState, demoPlayer, demoShip])
      (by rfl)
  · exact (C10_npc_phaser_attack demoState demoShip (some "npc1") false 0).2.2.2
      (by norm_num [demoState, demoPlayer, createSubsystems])
      demoShip
      (by simp [getShipOpt, getShip, demoState, demoShip])
      (by norm_num [hypotGt, sqGt, distSq, demoState, demoPlayer, demoShip])

end WarpMe
